import Mathlib

/-!
Verification of the financial aggregation and reporting engine of the
personal-finance application: `getFinancialSummary`
(src/server/src/handlers/get_financial_summary.ts) and
`getCategorySpending` (the handler alongside it).

The SQL-backed handlers are shallowly embedded as pure functions over an
explicit record store.  Calendar dates are modelled as natural numbers in
the yyyymmdd encoding: the handlers compare dates as ISO `YYYY-MM-DD`
strings (lexicographic order), which coincides with numeric order of the
yyyymmdd encoding.  Monetary values (SQL `numeric`, parsed to JS numbers
at the boundary) are modelled as rationals.
-/

abbrev Money := ℚ
abbrev CalDate := Nat

inductive TransactionType where
  | income
  | expense
deriving DecidableEq, Repr

structure Transaction where
  id : Nat
  user_id : Nat
  amount : Money
  ttype : TransactionType
  category_id : Nat
  transaction_date : CalDate
deriving DecidableEq, Repr

structure TransactionCategory where
  id : Nat
  name : String
  user_id : Nat
deriving DecidableEq, Repr

structure Budget where
  id : Nat
  user_id : Nat
  name : String
  category_id : Option Nat
  budget_amount : Money
  start_date : CalDate
  end_date : CalDate
deriving DecidableEq, Repr

structure Investment where
  id : Nat
  user_id : Nat
  current_value : Money
deriving DecidableEq, Repr

structure Debt where
  id : Nat
  user_id : Nat
  current_balance : Money
deriving DecidableEq, Repr

/-- The record store: the five persisted collections the two read
operations consume. -/
structure Store where
  transactions : List Transaction
  categories : List TransactionCategory
  budgets : List Budget
  investments : List Investment
  debts : List Debt
deriving DecidableEq, Repr

/-- Common input shape of both operations:
`{ user_id, period_start, period_end }`. -/
structure SummaryInput where
  user_id : Nat
  period_start : CalDate
  period_end : CalDate
deriving DecidableEq, Repr

/-- Sum of the `amount` fields of a list of transactions (SQL `sum`,
with the empty sum read back as 0 via `parseFloat(x || '0')`). -/
def sumAmounts (ts : List Transaction) : Money :=
  (ts.map (·.amount)).sum

/-- Step 1 of `getFinancialSummary`: the user's transactions with
`transaction_date` in the inclusive period
(`eq(user_id) ∧ gte(transaction_date, start) ∧ lte(transaction_date, end)`). -/
def periodTransactions (s : Store) (inp : SummaryInput) : List Transaction :=
  s.transactions.filter (fun t =>
    t.user_id == inp.user_id
      && decide (inp.period_start ≤ t.transaction_date)
      && decide (t.transaction_date ≤ inp.period_end))

/-- `total_income`: the income group's sum from the
`group by type` aggregate (0 when the group is absent). -/
def totalIncome (s : Store) (inp : SummaryInput) : Money :=
  sumAmounts ((periodTransactions s inp).filter (fun t => t.ttype == TransactionType.income))

/-- `total_expenses`: the expense group's sum from the
`group by type` aggregate (0 when the group is absent). -/
def totalExpenses (s : Store) (inp : SummaryInput) : Money :=
  sumAmounts ((periodTransactions s inp).filter (fun t => t.ttype == TransactionType.expense))

/-- JS truthiness of `budget.category_id` in
`if (budget.category_id) conditions.push(...)`: `null` and `0` are falsy. -/
def categoryTruthy : Option Nat → Bool
  | some cid => cid != 0
  | none => false

/-- The per-budget spend query: the user's expense transactions inside the
reporting period, additionally restricted to the budget's category when
`budget.category_id` is truthy. -/
def budgetSpentAmount (s : Store) (inp : SummaryInput) (b : Budget) : Money :=
  sumAmounts (s.transactions.filter (fun t =>
    t.user_id == inp.user_id
      && t.ttype == TransactionType.expense
      && decide (inp.period_start ≤ t.transaction_date)
      && decide (t.transaction_date ≤ inp.period_end)
      && (if categoryTruthy b.category_id then t.category_id == b.category_id.getD 0 else true)))

structure BudgetPerformance where
  budget_name : String
  budget_amount : Money
  spent_amount : Money
  remaining_amount : Money
  percentage_used : Money
deriving DecidableEq, Repr

/-- Step 4 of `getFinancialSummary`: the budget selection query —
the user's budgets with
`lte(start_date, period_end) ∧ gte(end_date, period_start)`. -/
def selectedBudgets (s : Store) (inp : SummaryInput) : List Budget :=
  s.budgets.filter (fun b =>
    b.user_id == inp.user_id
      && decide (b.start_date ≤ inp.period_end)
      && decide (inp.period_start ≤ b.end_date))

/-- The body of the `budgets.map` in the handler: spent amount, remaining
amount and the guarded percentage for one selected budget. -/
def evalBudget (s : Store) (inp : SummaryInput) (b : Budget) : BudgetPerformance :=
  let spent := budgetSpentAmount s inp b
  { budget_name := b.name
    budget_amount := b.budget_amount
    spent_amount := spent
    remaining_amount := b.budget_amount - spent
    percentage_used := if 0 < b.budget_amount then spent / b.budget_amount * 100 else 0 }

structure FinancialSummary where
  user_id : Nat
  period_start : CalDate
  period_end : CalDate
  total_income : Money
  total_expenses : Money
  net_income : Money
  total_investments_value : Money
  total_debt_balance : Money
  budget_performance : List BudgetPerformance
deriving DecidableEq, Repr

/-- `getFinancialSummary` of
src/server/src/handlers/get_financial_summary.ts. -/
def getFinancialSummary (s : Store) (inp : SummaryInput) : FinancialSummary :=
  { user_id := inp.user_id
    period_start := inp.period_start
    period_end := inp.period_end
    total_income := totalIncome s inp
    total_expenses := totalExpenses s inp
    net_income := totalIncome s inp - totalExpenses s inp
    total_investments_value :=
      ((s.investments.filter (fun i => i.user_id == inp.user_id)).map (·.current_value)).sum
    total_debt_balance :=
      ((s.debts.filter (fun d => d.user_id == inp.user_id)).map (·.current_balance)).sum
    budget_performance := (selectedBudgets s inp).map (evalBudget s inp) }

structure CategorySpending where
  category_id : Nat
  category_name : String
  total_amount : Money
  transaction_count : Nat
  percentage_of_total : Money
deriving DecidableEq, Repr

/-- The row source of `getCategorySpending`'s aggregate: the user's
expense transactions inside the inclusive period (the `where` clause,
in the handler's condition order: user, gte, lte, expense). -/
def spendingTx (s : Store) (inp : SummaryInput) : List Transaction :=
  s.transactions.filter (fun t =>
    t.user_id == inp.user_id
      && decide (inp.period_start ≤ t.transaction_date)
      && decide (t.transaction_date ≤ inp.period_end)
      && t.ttype == TransactionType.expense)

/-- The rows joined to one category record via
`innerJoin(... eq(transactions.category_id, categories.id))`. -/
def categoryGroup (s : Store) (inp : SummaryInput) (c : TransactionCategory) : List Transaction :=
  (spendingTx s inp).filter (fun t => t.category_id == c.id)

/-- The `group by category` result rows: one group per category record
with at least one joined transaction (the inner join drops categories
with no matching row). -/
def spendingGroups (s : Store) (inp : SummaryInput) :
    List (TransactionCategory × List Transaction) :=
  (s.categories.map (fun c => (c, categoryGroup s inp c))).filter (fun p => !p.2.isEmpty)

/-- `totalSpending`: the reduce over the group rows' `total_amount`. -/
def grandTotal (s : Store) (inp : SummaryInput) : Money :=
  ((spendingGroups s inp).map (fun p => sumAmounts p.2)).sum

/-- The final `results.map` body: one output row, with the percentage
guarded by `totalSpending > 0`. -/
def categoryRow (s : Store) (inp : SummaryInput)
    (p : TransactionCategory × List Transaction) : CategorySpending :=
  { category_id := p.1.id
    category_name := p.1.name
    total_amount := sumAmounts p.2
    transaction_count := p.2.length
    percentage_of_total :=
      if 0 < grandTotal s inp then sumAmounts p.2 / grandTotal s inp * 100 else 0 }

/-- `getCategorySpending` of the category-spending handler. -/
def getCategorySpending (s : Store) (inp : SummaryInput) : List CategorySpending :=
  (spendingGroups s inp).map (categoryRow s inp)

/-! ### Concrete fixtures (scenarios of §8 of the spec) -/

/-- Scenario A fixture: two income and two expense transactions of user 1
inside January 2024. -/
def scenarioAStore : Store :=
  { transactions :=
      [ { id := 1, user_id := 1, amount := 5000, ttype := .income, category_id := 1,
          transaction_date := 20240115 }
      , { id := 2, user_id := 1, amount := 1200, ttype := .income, category_id := 1,
          transaction_date := 20240120 }
      , { id := 3, user_id := 1, amount := 800, ttype := .expense, category_id := 2,
          transaction_date := 20240110 }
      , { id := 4, user_id := 1, amount := 300, ttype := .expense, category_id := 2,
          transaction_date := 20240125 } ]
    categories :=
      [ { id := 1, name := "Salary", user_id := 1 }
      , { id := 2, name := "Food", user_id := 1 } ]
    budgets := []
    investments := []
    debts := [] }

/-- The January 2024 reporting period of Scenarios A and E. -/
def januaryInput : SummaryInput :=
  { user_id := 1, period_start := 20240101, period_end := 20240131 }

/-- The income total of the summary, characterized as one filtered sum
over the store's transactions. -/
theorem totalIncome_eq (s : Store) (inp : SummaryInput) :
    totalIncome s inp =
      ((s.transactions.filter (fun t =>
          t.user_id == inp.user_id && t.ttype == TransactionType.income
            && decide (inp.period_start ≤ t.transaction_date)
            && decide (t.transaction_date ≤ inp.period_end))).map (·.amount)).sum := by
  unfold totalIncome periodTransactions sumAmounts
  rw [List.filter_filter]
  congr 2
  apply List.filter_congr
  intro t _
  simp [Bool.and_comm, Bool.and_left_comm, Bool.and_assoc]

/-- The expense total of the summary, characterized as one filtered sum
over the store's transactions. -/
theorem totalExpenses_eq (s : Store) (inp : SummaryInput) :
    totalExpenses s inp =
      ((s.transactions.filter (fun t =>
          t.user_id == inp.user_id && t.ttype == TransactionType.expense
            && decide (inp.period_start ≤ t.transaction_date)
            && decide (t.transaction_date ≤ inp.period_end))).map (·.amount)).sum := by
  unfold totalExpenses periodTransactions sumAmounts
  rw [List.filter_filter]
  congr 2
  apply List.filter_congr
  intro t _
  simp [Bool.and_comm, Bool.and_left_comm, Bool.and_assoc]

/-- C1: for every user and inclusive period, `total_income` is the sum of
the user's income transactions dated inside the period (0 if none),
`total_expenses` the sum of the expense ones (0 if none), and `net_income`
their difference; on the Scenario A fixture the summary is
6200 / 1100 / 5100. -/
theorem financial_summary_income_expense_totals (s : Store) (inp : SummaryInput) :
    ((getFinancialSummary s inp).total_income =
        ((s.transactions.filter (fun t =>
            t.user_id == inp.user_id && t.ttype == TransactionType.income
              && decide (inp.period_start ≤ t.transaction_date)
              && decide (t.transaction_date ≤ inp.period_end))).map (·.amount)).sum
      ∧ (getFinancialSummary s inp).total_expenses =
        ((s.transactions.filter (fun t =>
            t.user_id == inp.user_id && t.ttype == TransactionType.expense
              && decide (inp.period_start ≤ t.transaction_date)
              && decide (t.transaction_date ≤ inp.period_end))).map (·.amount)).sum
      ∧ (getFinancialSummary s inp).net_income =
          (getFinancialSummary s inp).total_income - (getFinancialSummary s inp).total_expenses)
    ∧ ((getFinancialSummary scenarioAStore januaryInput).total_income = 6200
      ∧ (getFinancialSummary scenarioAStore januaryInput).total_expenses = 1100
      ∧ (getFinancialSummary scenarioAStore januaryInput).net_income = 5100) := by
  have hty :
      (TransactionType.expense == TransactionType.income) = false ∧
      (TransactionType.income == TransactionType.income) = true ∧
      (TransactionType.income == TransactionType.expense) = false ∧
      (TransactionType.expense == TransactionType.expense) = true := by
    refine ⟨rfl, rfl, rfl, rfl⟩
  refine ⟨⟨totalIncome_eq s inp, totalExpenses_eq s inp, rfl⟩, ?_, ?_, ?_⟩
  · norm_num [getFinancialSummary, totalIncome, periodTransactions, sumAmounts,
      scenarioAStore, januaryInput, hty.1, hty.2.1]
  · norm_num [getFinancialSummary, totalExpenses, periodTransactions, sumAmounts,
      scenarioAStore, januaryInput, hty.2.2.1, hty.2.2.2]
  · norm_num [getFinancialSummary, totalIncome, totalExpenses, periodTransactions, sumAmounts,
      scenarioAStore, januaryInput, hty.1, hty.2.1, hty.2.2.1, hty.2.2.2]

/-- Scenario E fixture: user 1's only budget lies entirely in February
2024, so it cannot overlap the January reporting period. -/
def scenarioEStore : Store :=
  { transactions := []
    categories := []
    budgets :=
      [ { id := 1, user_id := 1, name := "Feb groceries", category_id := none,
          budget_amount := 500, start_date := 20240201, end_date := 20240229 } ]
    investments := []
    debts := [] }

/-- C2: a budget of the user enters `budget_performance` exactly when its
window overlaps the reporting period
(`start_date ≤ period_end ∧ period_start ≤ end_date`); non-overlapping
budgets are dropped entirely (Scenario E yields an empty list). -/
theorem budget_performance_overlap_selection (s : Store) (inp : SummaryInput) :
    ((getFinancialSummary s inp).budget_performance =
        (selectedBudgets s inp).map (evalBudget s inp)
      ∧ ∀ b : Budget, b ∈ selectedBudgets s inp ↔
          (b ∈ s.budgets ∧ b.user_id = inp.user_id
            ∧ b.start_date ≤ inp.period_end ∧ inp.period_start ≤ b.end_date))
    ∧ (getFinancialSummary scenarioEStore januaryInput).budget_performance = [] := by
  refine ⟨⟨rfl, ?_⟩, ?_⟩
  · intro b
    simp [selectedBudgets, List.mem_filter, and_assoc]
  · decide

/-- Scenario D fixture: two investments of user 1 valued 1800 and 25000;
one debt with balance 400 to exercise the debt sum as well. -/
def scenarioDStore : Store :=
  { transactions := []
    categories := []
    budgets := []
    investments :=
      [ { id := 1, user_id := 1, current_value := 1800 }
      , { id := 2, user_id := 1, current_value := 25000 } ]
    debts := [ { id := 1, user_id := 1, current_balance := 400 } ] }

/-- C7: `total_investments_value` sums `current_value` over all of the
user's investments and `total_debt_balance` sums `current_balance` over
all of the user's debts, both independent of the reporting period; on the
Scenario D fixture the investment total is 26800 for two different
periods. -/
theorem investments_and_debts_are_period_independent (s : Store) (u p1 p2 q1 q2 : Nat) :
    ((getFinancialSummary s ⟨u, p1, p2⟩).total_investments_value =
        ((s.investments.filter (fun i => i.user_id == u)).map (·.current_value)).sum
      ∧ (getFinancialSummary s ⟨u, p1, p2⟩).total_debt_balance =
        ((s.debts.filter (fun d => d.user_id == u)).map (·.current_balance)).sum
      ∧ (getFinancialSummary s ⟨u, p1, p2⟩).total_investments_value =
          (getFinancialSummary s ⟨u, q1, q2⟩).total_investments_value
      ∧ (getFinancialSummary s ⟨u, p1, p2⟩).total_debt_balance =
          (getFinancialSummary s ⟨u, q1, q2⟩).total_debt_balance)
    ∧ ((getFinancialSummary scenarioDStore januaryInput).total_investments_value = 26800
      ∧ (getFinancialSummary scenarioDStore ⟨1, 20230601, 20230630⟩).total_investments_value = 26800
      ∧ (getFinancialSummary scenarioDStore januaryInput).total_debt_balance = 400) := by
  refine ⟨⟨rfl, rfl, rfl, rfl⟩, ?_, ?_, ?_⟩ <;>
    norm_num [getFinancialSummary, scenarioDStore, januaryInput]

/-- C8: a user with no records of their own gets an all-zero summary with
an empty budget list, and an empty category-spending list — no error. -/
theorem unknown_user_yields_zeros (s : Store) (inp : SummaryInput)
    (ht : ∀ t ∈ s.transactions, t.user_id ≠ inp.user_id)
    (hb : ∀ b ∈ s.budgets, b.user_id ≠ inp.user_id)
    (hi : ∀ i ∈ s.investments, i.user_id ≠ inp.user_id)
    (hd : ∀ d ∈ s.debts, d.user_id ≠ inp.user_id) :
    (getFinancialSummary s inp).total_income = 0
  ∧ (getFinancialSummary s inp).total_expenses = 0
  ∧ (getFinancialSummary s inp).net_income = 0
  ∧ (getFinancialSummary s inp).total_investments_value = 0
  ∧ (getFinancialSummary s inp).total_debt_balance = 0
  ∧ (getFinancialSummary s inp).budget_performance = []
  ∧ getCategorySpending s inp = [] := by
  have htx : periodTransactions s inp = [] := by
    rw [periodTransactions, List.filter_eq_nil_iff]
    intro t htmem
    have := ht t htmem
    simp_all
  have hstx : spendingTx s inp = [] := by
    rw [spendingTx, List.filter_eq_nil_iff]
    intro t htmem
    have := ht t htmem
    simp_all
  have hbud : selectedBudgets s inp = [] := by
    rw [selectedBudgets, List.filter_eq_nil_iff]
    intro b hbmem
    have := hb b hbmem
    simp_all
  have hinv : s.investments.filter (fun i => i.user_id == inp.user_id) = [] := by
    rw [List.filter_eq_nil_iff]
    intro i himem
    have := hi i himem
    simp_all
  have hdeb : s.debts.filter (fun d => d.user_id == inp.user_id) = [] := by
    rw [List.filter_eq_nil_iff]
    intro d hdmem
    have := hd d hdmem
    simp_all
  have hcs : getCategorySpending s inp = [] := by
    rw [getCategorySpending]
    have hg : spendingGroups s inp = [] := by
      rw [spendingGroups, List.filter_eq_nil_iff]
      intro p hp
      obtain ⟨c, _, rfl⟩ := List.mem_map.1 hp
      simp [categoryGroup, hstx]
    rw [hg]
    rfl
  refine ⟨?_, ?_, ?_, ?_, ?_, ?_, hcs⟩ <;>
    simp [getFinancialSummary, totalIncome, totalExpenses, htx, hbud, hinv, hdeb, sumAmounts]

/-- A store holding only records of user 2, used with user 1's input. -/
def otherUserStore : Store :=
  { transactions :=
      [ { id := 1, user_id := 2, amount := 10, ttype := .expense, category_id := 1,
          transaction_date := 20240110 } ]
    categories := [ { id := 1, name := "Misc", user_id := 2 } ]
    budgets :=
      [ { id := 1, user_id := 2, name := "B", category_id := none,
          budget_amount := 100, start_date := 20240101, end_date := 20240131 } ]
    investments := [ { id := 1, user_id := 2, current_value := 5 } ]
    debts := [ { id := 1, user_id := 2, current_balance := 7 } ] }

/-- Witness for C8 on a store that only holds another user's records. -/
theorem unknown_user_yields_zeros_witness :
    (getFinancialSummary otherUserStore januaryInput).total_income = 0
  ∧ (getFinancialSummary otherUserStore januaryInput).total_expenses = 0
  ∧ (getFinancialSummary otherUserStore januaryInput).net_income = 0
  ∧ (getFinancialSummary otherUserStore januaryInput).total_investments_value = 0
  ∧ (getFinancialSummary otherUserStore januaryInput).total_debt_balance = 0
  ∧ (getFinancialSummary otherUserStore januaryInput).budget_performance = []
  ∧ getCategorySpending otherUserStore januaryInput = [] :=
  unknown_user_yields_zeros otherUserStore januaryInput
    (by decide) (by decide) (by decide) (by decide)

/-- C9: over a fixed store both operations are pure functions of the
store and the input — two calls with no intervening writes give equal
results — and the category-spending rows come out in the store's stable
category order (so `category_id` order is reproducible across calls). -/
theorem read_operations_pure_and_stable (s : Store) (inp : SummaryInput) :
    getFinancialSummary s inp = getFinancialSummary s inp
  ∧ getCategorySpending s inp = getCategorySpending s inp
  ∧ List.Sublist ((getCategorySpending s inp).map (·.category_id))
      (s.categories.map (·.id)) := by
  refine ⟨rfl, rfl, ?_⟩
  have h : List.Sublist (spendingGroups s inp)
      (s.categories.map (fun c => (c, categoryGroup s inp c))) := by
    rw [spendingGroups]
    exact List.filter_sublist _
  have h2 := List.Sublist.map (fun p : TransactionCategory × List Transaction => p.1.id) h
  simpa [getCategorySpending, List.map_map, Function.comp, categoryRow] using h2

@[simp] theorem income_beq_income : (TransactionType.income == TransactionType.income) = true := rfl

@[simp] theorem income_beq_expense : (TransactionType.income == TransactionType.expense) = false := rfl

@[simp] theorem expense_beq_income : (TransactionType.expense == TransactionType.income) = false := rfl

@[simp] theorem expense_beq_expense : (TransactionType.expense == TransactionType.expense) = true := rfl

/-- Follows the spec's words (§4.2 step 1): the user's expense
transactions with `transaction_date` in the reporting period. -/
def specPeriodExpenses (s : Store) (inp : SummaryInput) : List Transaction :=
  s.transactions.filter (fun t =>
    t.user_id == inp.user_id && t.ttype == TransactionType.expense
      && decide (inp.period_start ≤ t.transaction_date)
      && decide (t.transaction_date ≤ inp.period_end))

/-- C3: for a selected budget, `spent_amount` sums the user's expense
transactions of the reporting period, restricted to the budget's
category when `category_id` is non-null and unrestricted when it is
null, and `remaining_amount = budget_amount - spent_amount`.
(`category_id ≠ some 0` reflects that category ids are generated from 1;
the handler tests `if (budget.category_id)`, under which 0 is falsy.) -/
theorem budget_spent_and_remaining (s : Store) (inp : SummaryInput) (b : Budget)
    (hb : b ∈ selectedBudgets s inp) (hcid : b.category_id ≠ some 0) :
    ((evalBudget s inp b).spent_amount =
        match b.category_id with
        | some cid =>
            sumAmounts ((specPeriodExpenses s inp).filter (fun t => t.category_id == cid))
        | none => sumAmounts (specPeriodExpenses s inp))
    ∧ (evalBudget s inp b).remaining_amount =
        b.budget_amount - (evalBudget s inp b).spent_amount := by
  refine ⟨?_, rfl⟩
  cases hc : b.category_id with
  | none =>
    show budgetSpentAmount s inp b = sumAmounts (specPeriodExpenses s inp)
    unfold budgetSpentAmount specPeriodExpenses
    congr 1
    apply List.filter_congr
    intro t _
    simp [hc, categoryTruthy, Bool.and_comm, Bool.and_left_comm, Bool.and_assoc]
  | some cid =>
    have hne : cid ≠ 0 := fun h => hcid (by rw [hc, h])
    show budgetSpentAmount s inp b =
        sumAmounts ((specPeriodExpenses s inp).filter (fun t => t.category_id == cid))
    unfold budgetSpentAmount specPeriodExpenses
    rw [List.filter_filter]
    congr 1
    apply List.filter_congr
    intro t _
    simp [hc, categoryTruthy, hne, Bool.and_comm, Bool.and_left_comm, Bool.and_assoc]

/-- A budget scoped to category 2, deliberately smaller than the period's
spend on that category, so the remaining amount comes out negative. -/
def foodBudget : Budget :=
  { id := 1, user_id := 1, name := "Food", category_id := some 2,
    budget_amount := 30, start_date := 20240101, end_date := 20240131 }

/-- Fixture for the category-scoped budget: expenses of 100 (category 2)
and 50 (category 3) plus an income row inside January 2024. -/
def categoryBudgetStore : Store :=
  { transactions :=
      [ { id := 1, user_id := 1, amount := 100, ttype := .expense, category_id := 2,
          transaction_date := 20240110 }
      , { id := 2, user_id := 1, amount := 50, ttype := .expense, category_id := 3,
          transaction_date := 20240112 }
      , { id := 3, user_id := 1, amount := 75, ttype := .income, category_id := 1,
          transaction_date := 20240113 } ]
    categories :=
      [ { id := 1, name := "Salary", user_id := 1 }
      , { id := 2, name := "Food", user_id := 1 }
      , { id := 3, name := "Transport", user_id := 1 } ]
    budgets := [foodBudget]
    investments := []
    debts := [] }

/-- Witness for C3 at the category-scoped budget; the extra conjuncts
evaluate the spend to 100 and the (negative) remainder to -70. -/
theorem budget_spent_and_remaining_witness :
    (foodBudget ∈ selectedBudgets categoryBudgetStore januaryInput
      ∧ foodBudget.category_id ≠ some 0)
  ∧ ((evalBudget categoryBudgetStore januaryInput foodBudget).spent_amount =
        sumAmounts ((specPeriodExpenses categoryBudgetStore januaryInput).filter
          (fun t => t.category_id == 2))
      ∧ (evalBudget categoryBudgetStore januaryInput foodBudget).remaining_amount =
          foodBudget.budget_amount -
            (evalBudget categoryBudgetStore januaryInput foodBudget).spent_amount)
  ∧ ((evalBudget categoryBudgetStore januaryInput foodBudget).spent_amount = 100
      ∧ (evalBudget categoryBudgetStore januaryInput foodBudget).remaining_amount = -70) :=
  ⟨⟨by decide, by decide⟩,
    budget_spent_and_remaining categoryBudgetStore januaryInput foodBudget
      (by decide) (by decide),
    by norm_num [evalBudget, budgetSpentAmount, sumAmounts, categoryBudgetStore, foodBudget,
      januaryInput, categoryTruthy]⟩

/-- C4: every budget-performance row's `percentage_used` is
`spent / budget_amount * 100` under the `budget_amount > 0` guard and 0
when `budget_amount` is 0, and every category-spending row's
`percentage_of_total` is `total / grand_total * 100` under the
`grand_total > 0` guard and 0 when the grand total is 0; the guards mean
no division by zero is ever evaluated. -/
theorem percentage_division_guards (s : Store) (inp : SummaryInput) :
    (∀ p, p ∈ (getFinancialSummary s inp).budget_performance →
        ((0 < p.budget_amount → p.percentage_used = p.spent_amount / p.budget_amount * 100)
          ∧ (p.budget_amount = 0 → p.percentage_used = 0)))
  ∧ (∀ r, r ∈ getCategorySpending s inp →
        ((0 < grandTotal s inp →
            r.percentage_of_total = r.total_amount / grandTotal s inp * 100)
          ∧ (grandTotal s inp = 0 → r.percentage_of_total = 0))) := by
  constructor
  · intro p hp
    have hp' : p ∈ (selectedBudgets s inp).map (evalBudget s inp) := hp
    obtain ⟨b, _, rfl⟩ := List.mem_map.1 hp'
    constructor
    · intro hpos
      simp only [evalBudget] at hpos ⊢
      rw [if_pos hpos]
    · intro hzero
      simp only [evalBudget] at hzero ⊢
      rw [if_neg (by simp [hzero])]
  · intro r hr
    have hr' : r ∈ (spendingGroups s inp).map (categoryRow s inp) := hr
    obtain ⟨p, _, rfl⟩ := List.mem_map.1 hr'
    constructor
    · intro hpos
      simp only [categoryRow]
      rw [if_pos hpos]
    · intro hzero
      simp only [categoryRow]
      rw [if_neg (by simp [hzero])]

/-- The "Food" category record of the C3/C4 fixture. -/
def foodCategory : TransactionCategory := { id := 2, name := "Food", user_id := 1 }

/-- The output row of the C3/C4 fixture's "Food" category. -/
def foodRow : CategorySpending :=
  categoryRow categoryBudgetStore januaryInput
    (foodCategory, categoryGroup categoryBudgetStore januaryInput foodCategory)

/-- Witness for C4 at the C3 fixture, on both result lists. -/
theorem percentage_division_guards_witness :
    ((0 < (evalBudget categoryBudgetStore januaryInput foodBudget).budget_amount →
        (evalBudget categoryBudgetStore januaryInput foodBudget).percentage_used =
          (evalBudget categoryBudgetStore januaryInput foodBudget).spent_amount /
            (evalBudget categoryBudgetStore januaryInput foodBudget).budget_amount * 100)
      ∧ ((evalBudget categoryBudgetStore januaryInput foodBudget).budget_amount = 0 →
          (evalBudget categoryBudgetStore januaryInput foodBudget).percentage_used = 0))
  ∧ ((0 < grandTotal categoryBudgetStore januaryInput →
        foodRow.percentage_of_total =
          foodRow.total_amount / grandTotal categoryBudgetStore januaryInput * 100)
      ∧ (grandTotal categoryBudgetStore januaryInput = 0 →
          foodRow.percentage_of_total = 0)) :=
  ⟨(percentage_division_guards categoryBudgetStore januaryInput).1 _
      (List.mem_map.2 ⟨foodBudget, by decide, rfl⟩),
   (percentage_division_guards categoryBudgetStore januaryInput).2 foodRow
      (List.mem_map.2
        ⟨(foodCategory, categoryGroup categoryBudgetStore januaryInput foodCategory),
          by decide, rfl⟩)⟩

/-- Distributing a common `/ g * 100` over a list sum. -/
theorem sum_map_div_mul (l : List ℚ) (g : ℚ) :
    (l.map (fun x => x / g * 100)).sum = l.sum / g * 100 := by
  induction l with
  | nil => simp
  | cons a l ih =>
    simp only [List.map_cons, List.sum_cons, ih]
    ring

/-- C5: whenever `getCategorySpending` returns a non-empty list (and the
stored amounts are positive, as the write path guarantees), the
`percentage_of_total` fields sum to exactly 100 in rational arithmetic. -/
theorem category_percentages_sum_to_100 (s : Store) (inp : SummaryInput)
    (hpos : ∀ t ∈ s.transactions, 0 < t.amount)
    (hne : getCategorySpending s inp ≠ []) :
    ((getCategorySpending s inp).map (·.percentage_of_total)).sum = 100 := by
  have hgne : spendingGroups s inp ≠ [] := by
    intro h
    exact hne (by rw [getCategorySpending, h]; rfl)
  have hgpos : ∀ p ∈ spendingGroups s inp, 0 < sumAmounts p.2 := by
    intro p hp
    have hmem : ∀ t ∈ p.2, t ∈ s.transactions := by
      intro t ht
      have hp' := List.mem_of_mem_filter hp
      obtain ⟨c, _, rfl⟩ := List.mem_map.1 hp'
      exact List.mem_of_mem_filter (List.mem_of_mem_filter ht)
    have hne2 : p.2 ≠ [] := by
      have := List.of_mem_filter hp
      simpa using this
    rw [sumAmounts]
    apply List.sum_pos
    · intro x hx
      obtain ⟨t, ht, rfl⟩ := List.mem_map.1 hx
      exact hpos t (hmem t ht)
    · simpa using hne2
  have hG : 0 < grandTotal s inp := by
    rw [grandTotal]
    apply List.sum_pos
    · intro x hx
      obtain ⟨p, hp, rfl⟩ := List.mem_map.1 hx
      exact hgpos p hp
    · simpa using hgne
  have hGne : grandTotal s inp ≠ 0 := ne_of_gt hG
  rw [getCategorySpending, List.map_map]
  have hfun : ((fun r : CategorySpending => r.percentage_of_total) ∘ categoryRow s inp)
      = fun p : TransactionCategory × List Transaction =>
          sumAmounts p.2 / grandTotal s inp * 100 := by
    funext p
    simp [categoryRow, if_pos hG]
  rw [hfun]
  have hcomp : (fun p : TransactionCategory × List Transaction =>
        sumAmounts p.2 / grandTotal s inp * 100)
      = (fun x => x / grandTotal s inp * 100)
          ∘ (fun p : TransactionCategory × List Transaction => sumAmounts p.2) := rfl
  rw [hcomp, ← List.map_map, sum_map_div_mul]
  show grandTotal s inp / grandTotal s inp * 100 = 100
  rw [div_self hGne]
  norm_num

/-- Scenario B fixture: expense transactions Food {100, 150} and
Transport {50} of user 1 inside January 2024. -/
def scenarioBStore : Store :=
  { transactions :=
      [ { id := 1, user_id := 1, amount := 100, ttype := .expense, category_id := 2,
          transaction_date := 20240105 }
      , { id := 2, user_id := 1, amount := 150, ttype := .expense, category_id := 2,
          transaction_date := 20240110 }
      , { id := 3, user_id := 1, amount := 50, ttype := .expense, category_id := 3,
          transaction_date := 20240115 } ]
    categories :=
      [ { id := 2, name := "Food", user_id := 1 }
      , { id := 3, name := "Transport", user_id := 1 } ]
    budgets := []
    investments := []
    debts := [] }

/-- Witness for C5 on the Scenario B fixture. -/
theorem category_percentages_sum_to_100_witness :
    ((∀ t ∈ scenarioBStore.transactions, 0 < t.amount)
      ∧ getCategorySpending scenarioBStore januaryInput ≠ [])
  ∧ ((getCategorySpending scenarioBStore januaryInput).map (·.percentage_of_total)).sum = 100 :=
  ⟨⟨by decide, by decide⟩,
    category_percentages_sum_to_100 scenarioBStore januaryInput (by decide) (by decide)⟩

/-- C6: `getCategorySpending` aggregates exactly the user's expense
transactions inside the inclusive period: (1) the row source holds a
transaction iff it is the user's expense transaction dated inside
[period_start, period_end] (boundary dates included); (2) each
category's group is the spec's per-category expense list; (3) a row is
returned iff its category has a non-empty group; (4) a row exposes the
category id/name, the group's amount sum and its row count; (5) no
expense transactions in range yields the empty list. -/
theorem categorySpending_exactly_groups_period_expenses (s : Store) (inp : SummaryInput) :
    (∀ t : Transaction, t ∈ spendingTx s inp ↔
        (t ∈ s.transactions ∧ t.user_id = inp.user_id
          ∧ t.ttype = TransactionType.expense
          ∧ inp.period_start ≤ t.transaction_date
          ∧ t.transaction_date ≤ inp.period_end))
  ∧ (∀ c : TransactionCategory, categoryGroup s inp c =
        (specPeriodExpenses s inp).filter (fun t => t.category_id == c.id))
  ∧ (∀ r : CategorySpending, r ∈ getCategorySpending s inp ↔
        ∃ c, c ∈ s.categories ∧ categoryGroup s inp c ≠ []
          ∧ r = categoryRow s inp (c, categoryGroup s inp c))
  ∧ (∀ p : TransactionCategory × List Transaction,
        (categoryRow s inp p).category_id = p.1.id
          ∧ (categoryRow s inp p).category_name = p.1.name
          ∧ (categoryRow s inp p).total_amount = sumAmounts p.2
          ∧ (categoryRow s inp p).transaction_count = p.2.length)
  ∧ (spendingTx s inp = [] → getCategorySpending s inp = []) := by
  refine ⟨?_, ?_, ?_, fun p => ⟨rfl, rfl, rfl, rfl⟩, ?_⟩
  · intro t
    simp only [spendingTx, List.mem_filter, Bool.and_eq_true, beq_iff_eq, decide_eq_true_eq]
    tauto
  · intro c
    unfold categoryGroup spendingTx specPeriodExpenses
    rw [List.filter_filter, List.filter_filter]
    apply List.filter_congr
    intro t _
    simp [Bool.and_comm, Bool.and_left_comm, Bool.and_assoc]
  · intro r
    constructor
    · intro hr
      have hr' : r ∈ (spendingGroups s inp).map (categoryRow s inp) := hr
      obtain ⟨p, hp, rfl⟩ := List.mem_map.1 hr'
      have hp1 := List.mem_of_mem_filter hp
      obtain ⟨c, hc, rfl⟩ := List.mem_map.1 hp1
      have hne := List.of_mem_filter hp
      exact ⟨c, hc, by simpa using hne, rfl⟩
    · rintro ⟨c, hc, hne, rfl⟩
      show categoryRow s inp _ ∈ (spendingGroups s inp).map (categoryRow s inp)
      apply List.mem_map.2
      refine ⟨(c, categoryGroup s inp c), ?_, rfl⟩
      rw [spendingGroups]
      apply List.mem_filter.2
      refine ⟨List.mem_map.2 ⟨c, hc, rfl⟩, ?_⟩
      simpa using hne
  · intro hst
    rw [getCategorySpending]
    have hg : spendingGroups s inp = [] := by
      rw [spendingGroups, List.filter_eq_nil_iff]
      intro p hp
      obtain ⟨c, _, rfl⟩ := List.mem_map.1 hp
      simp [categoryGroup, hst]
    rw [hg]
    rfl

/-- Witness for C6's empty-period conjunct: Scenario D's store has no
transactions at all, so the spending list is empty. -/
theorem categorySpending_exactly_groups_witness :
    spendingTx scenarioDStore januaryInput = []
  ∧ getCategorySpending scenarioDStore januaryInput = [] :=
  ⟨by decide,
    (categorySpending_exactly_groups_period_expenses scenarioDStore januaryInput).2.2.2.2
      (by decide)⟩

/-- Splitting a transaction sum along a Boolean predicate. -/
theorem sumAmounts_filter_split (p : Transaction → Bool) (ts : List Transaction) :
    sumAmounts (ts.filter p) + sumAmounts (ts.filter (fun t => !p t)) = sumAmounts ts := by
  induction ts with
  | nil => simp [sumAmounts]
  | cons t ts ih =>
    cases hp : p t <;>
      simp [sumAmounts, List.filter_cons, hp] at ih ⊢ <;> linarith

/-- Filtering by a predicate that is false only on zero-valued entries
does not change the mapped sum. -/
theorem sum_map_filter_eq {α : Type} (l : List α) (f : α → ℚ) (q : α → Bool)
    (h : ∀ a ∈ l, q a = false → f a = 0) :
    ((l.filter q).map f).sum = (l.map f).sum := by
  induction l with
  | nil => simp
  | cons a l ih =>
    have hih := ih (fun a ha hq => h a (List.mem_cons_of_mem _ ha) hq)
    cases hq : q a with
    | false =>
      simp [List.filter_cons, hq, hih, h a (List.mem_cons_self a l) hq]
    | true =>
      simp [List.filter_cons, hq, hih]

/-- Summing per-category partial sums recovers the whole sum when the
category ids are distinct and every transaction's category id occurs. -/
theorem sum_groups_eq (cats : List TransactionCategory) (ts : List Transaction)
    (hnodup : (cats.map (·.id)).Nodup)
    (href : ∀ t ∈ ts, t.category_id ∈ cats.map (·.id)) :
    (cats.map (fun c => sumAmounts (ts.filter (fun t => t.category_id == c.id)))).sum
      = sumAmounts ts := by
  induction cats generalizing ts with
  | nil =>
    cases ts with
    | nil => simp [sumAmounts]
    | cons t ts => exact absurd (href t (by simp)) (by simp)
  | cons c cs ih =>
    have hsplit := sumAmounts_filter_split (fun t => t.category_id == c.id) ts
    have hnd1 : c.id ∉ cs.map (·.id) := by
      have h := hnodup
      simp only [List.map_cons, List.nodup_cons] at h
      exact h.1
    have hnd2 : (cs.map (·.id)).Nodup := by
      have h := hnodup
      simp only [List.map_cons, List.nodup_cons] at h
      exact h.2
    have href2 : ∀ t ∈ ts.filter (fun t => !(t.category_id == c.id)),
        t.category_id ∈ cs.map (·.id) := by
      intro t ht
      have htmem : t ∈ ts := List.mem_of_mem_filter ht
      have hne : t.category_id ≠ c.id := by
        have h := List.of_mem_filter ht
        simpa using h
      have h := href t htmem
      simp only [List.map_cons, List.mem_cons] at h
      rcases h with h | h
      · exact absurd h hne
      · exact h
    have hfe : ∀ c' ∈ cs, ts.filter (fun t => t.category_id == c'.id)
        = (ts.filter (fun t => !(t.category_id == c.id))).filter
            (fun t => t.category_id == c'.id) := by
      intro c' hc'
      have hcc : c'.id ≠ c.id := by
        intro h
        exact hnd1 (h ▸ List.mem_map.2 ⟨c', hc', rfl⟩)
      rw [List.filter_filter]
      apply List.filter_congr
      intro t _
      by_cases h : t.category_id = c'.id
      · simp [h, hcc]
      · simp [h]
    have hmap : cs.map (fun c' => sumAmounts (ts.filter (fun t => t.category_id == c'.id)))
        = cs.map (fun c' => sumAmounts
            ((ts.filter (fun t => !(t.category_id == c.id))).filter
              (fun t => t.category_id == c'.id))) := by
      apply List.map_congr_left
      intro c' hc'
      rw [hfe c' hc']
    simp only [List.map_cons, List.sum_cons]
    rw [hmap, ih (ts.filter (fun t => !(t.category_id == c.id))) hnd2 href2]
    linarith

/-- C10: when category ids are distinct (primary key) and every in-range
expense transaction's `category_id` references an existing category
(the schema's non-nullable foreign key), the inner join drops nothing:
the category-spending totals sum to `total_expenses` of the summary for
the same user and period. -/
theorem category_totals_match_expense_total (s : Store) (inp : SummaryInput)
    (hnodup : (s.categories.map (·.id)).Nodup)
    (href : ∀ t ∈ spendingTx s inp, t.category_id ∈ s.categories.map (·.id)) :
    ((getCategorySpending s inp).map (·.total_amount)).sum
      = (getFinancialSummary s inp).total_expenses := by
  rw [getCategorySpending, List.map_map]
  have h1 : ((fun r : CategorySpending => r.total_amount) ∘ categoryRow s inp)
      = fun p : TransactionCategory × List Transaction => sumAmounts p.2 := rfl
  rw [h1, spendingGroups]
  have hzero : ∀ p ∈ s.categories.map (fun c => (c, categoryGroup s inp c)),
      (!p.2.isEmpty) = false → sumAmounts p.2 = 0 := by
    intro p _ hq
    have hpe : p.2 = [] := by
      rw [← List.isEmpty_iff]
      simpa using hq
    rw [hpe]
    rfl
  rw [sum_map_filter_eq _ _ _ hzero, List.map_map]
  have h2 : ((fun p : TransactionCategory × List Transaction => sumAmounts p.2)
        ∘ fun c => (c, categoryGroup s inp c))
      = fun c => sumAmounts ((spendingTx s inp).filter (fun t => t.category_id == c.id)) := rfl
  rw [h2, sum_groups_eq s.categories (spendingTx s inp) hnodup href]
  show sumAmounts (spendingTx s inp) = totalExpenses s inp
  unfold spendingTx totalExpenses periodTransactions
  rw [List.filter_filter]
  congr 1
  apply List.filter_congr
  intro t _
  simp [Bool.and_comm, Bool.and_left_comm, Bool.and_assoc]

/-- Witness for C10 on the Scenario B fixture: both aggregates give 300. -/
theorem category_totals_match_expense_total_witness :
    ((scenarioBStore.categories.map (·.id)).Nodup
      ∧ ∀ t ∈ spendingTx scenarioBStore januaryInput,
          t.category_id ∈ scenarioBStore.categories.map (·.id))
  ∧ ((getCategorySpending scenarioBStore januaryInput).map (·.total_amount)).sum
      = (getFinancialSummary scenarioBStore januaryInput).total_expenses :=
  ⟨⟨by decide, by decide⟩,
    category_totals_match_expense_total scenarioBStore januaryInput (by decide) (by decide)⟩
